import Mathlib

/-!
Verification of the product-analyzer repository: a shallow embedding of
`src/app.py` (the Evaly analysis engine and its Streamlit handler) and
`src/shopify_connector.py` (the Shopify catalog connector), with theorems
settling the specification claims.

Conventions of the embedding:
* Python strings are Lean `String`s; `str.replace` is re-implemented
  character-exactly as `pyReplace` (left-to-right, non-overlapping
  replacement of every occurrence, patterns assumed nonempty as at
  both call sites).
* Exceptions raised by external SDK / network calls are passed in as
  `Except String` values: `Except.error msg` models the call raising an
  exception whose string rendering is `msg`.  A `try/except` block is the
  `match` on that value.
* Decimal values coming from the platform (prices, temperature) are
  modelled as `Rat`; the Python `float(...)` conversion of an SDK-supplied
  numeric string is the identity on that value.
* JSON values are the inductive `Json` below; the strict JSON decoding of
  the raw response text (Python `json.loads` inside the langchain helper)
  is abstracted as an `Except String Json` input, `Except.error` being a
  decode failure.
-/

/-! ### Python `str.replace`, re-implemented on character lists -/

/-- Fuel-indexed core of Python `str.replace`: scan left to right, replace
each non-overlapping occurrence of `old` by `new`.  Fuel at least the
length of the scanned list is enough when `old` is nonempty: every step
consumes at least one character. -/
def pyReplaceGo (old new : List Char) : Nat → List Char → List Char
  | _, [] => []
  | 0, s => s
  | Nat.succ fuel, c :: cs =>
    if old.isPrefixOf (c :: cs) then
      new ++ pyReplaceGo old new fuel (List.drop (old.length - 1) cs)
    else
      c :: pyReplaceGo old new fuel cs

/-- Python `s.replace(old, new)` for nonempty `old` (both uses in the
source pass the fixed nonempty literals `https://` and `http://`). -/
def pyReplace (s old new : String) : String :=
  String.mk (pyReplaceGo old.data new.data s.data.length s.data)

/-- `occursSub pat s` : does `pat` occur as a contiguous substring of `s`
(Python `pat in s` on strings)? -/
def occursSub (pat : List Char) : List Char → Bool
  | [] => pat.isEmpty
  | c :: cs => pat.isPrefixOf (c :: cs) || occursSub pat cs

/-- Python `s.endswith(pat)`. -/
def listEndsWith (s pat : List Char) : Bool :=
  pat.reverse.isPrefixOf s.reverse

/-! ### `ShopifyConnector.__init__` (src/shopify_connector.py lines 17-32) -/

/-- The normalization the constructor applies to the supplied shop
identifier: remove every occurrence of `https://`, then of `http://`;
if the result does not end with `.myshopify.com` and contains no dot,
append `.myshopify.com`. -/
def normalizeShopUrl (shop_url : String) : String :=
  let s := pyReplace (pyReplace shop_url "https://" "") "http://" ""
  if ¬ listEndsWith s.data ".myshopify.com".data then
    if ¬ s.data.contains '.' then s ++ ".myshopify.com" else s
  else s

/-- The fields the constructor stores (the mutable `session` handle is
carried separately by the operations that use it). -/
structure ShopifyConnectorState where
  shop_url : String
  access_token : String
  api_version : String
deriving DecidableEq

/-- Embeds `ShopifyConnector.__init__`. -/
def ShopifyConnector.init (shop_url access_token : String) : ShopifyConnectorState :=
  { shop_url := normalizeShopUrl shop_url
    access_token := access_token
    api_version := "2024-01" }

/-! ### SDK records and the catalog field mapping -/

/-- A product variant as returned by the Shopify SDK (only the fields the
connector reads). -/
structure ShopifyVariant where
  price : Rat
  compare_at_price : Option Rat
  sku : String
  inventory_quantity : Int
deriving DecidableEq

/-- A product image as returned by the SDK. -/
structure ShopifyImage where
  src : String
deriving DecidableEq

/-- A product record as returned by the Shopify SDK (only the fields the
connector reads). -/
structure ShopifySDKProduct where
  id : Int
  title : String
  variants : List ShopifyVariant
  images : List ShopifyImage
  product_type : String
  vendor : String
  tags : String
  status : String
  created_at : String
  handle : String
deriving DecidableEq

/-- The flat product dictionary built by `get_products` /
`get_product_by_id` (src/shopify_connector.py lines 75-91 and 115-131). -/
structure ProductData where
  id : Int
  name : String
  price : Rat
  compare_at_price : Option Rat
  sku : String
  inventory_quantity : Int
  product_type : String
  vendor : String
  tags : String
  status : String
  created_at : String
  image_url : Option String
  variants_count : Nat
  handle : String
  url : String
deriving DecidableEq

/-- The per-product field mapping shared by `get_products` and
`get_product_by_id`: first variant as price/sku/inventory representative
(defaults 0.0 / empty / 0 when there is none), first image as
representative image, display URL built from the stored shop domain and
the product handle. -/
def mapProduct (shop_url : String) (p : ShopifySDKProduct) : ProductData :=
  let variant? := p.variants.head?
  { id := p.id
    name := p.title
    price := match variant? with | some v => v.price | none => 0
    compare_at_price := match variant? with | some v => v.compare_at_price | none => none
    sku := match variant? with | some v => v.sku | none => ""
    inventory_quantity := match variant? with | some v => v.inventory_quantity | none => 0
    product_type := p.product_type
    vendor := p.vendor
    tags := p.tags
    status := p.status
    created_at := p.created_at
    image_url := match p.images.head? with | some i => some i.src | none => none
    variants_count := p.variants.length
    handle := p.handle
    url := "https://" ++ shop_url ++ "/products/" ++ p.handle }

/-- Embeds `ShopifyConnector.get_products`: the SDK call
`shopify.Product.find(limit=limit)` either raises (`Except.error`) or
returns the (already limit-truncated) records; any raise is funnelled
into an empty list plus a printed log line (second component). -/
def get_products (st : ShopifyConnectorState)
    (sdk : Except String (List ShopifySDKProduct)) :
    List ProductData × List String :=
  match sdk with
  | Except.ok ps => (ps.map (mapProduct st.shop_url), [])
  | Except.error e => ([], ["Error fetching products: " ++ e])

/-- Embeds `ShopifyConnector.get_product_by_id`: a raise from
`shopify.Product.find(product_id)` becomes `none` plus a log line. -/
def get_product_by_id (st : ShopifyConnectorState)
    (sdk : Except String ShopifySDKProduct) :
    Option ProductData × List String :=
  match sdk with
  | Except.ok p => (some (mapProduct st.shop_url p), [])
  | Except.error e => (none, ["Error fetching product: " ++ e])

/-- The reduced dictionary built by `search_products`. -/
structure SearchProductData where
  id : Int
  name : String
  price : Rat
  sku : String
  vendor : String
  status : String
deriving DecidableEq

/-- The per-product mapping inside `search_products`. -/
def mapSearchProduct (p : ShopifySDKProduct) : SearchProductData :=
  let variant? := p.variants.head?
  { id := p.id
    name := p.title
    price := match variant? with | some v => v.price | none => 0
    sku := match variant? with | some v => v.sku | none => ""
    vendor := p.vendor
    status := p.status }

/-- Embeds `ShopifyConnector.search_products`: a raise from
`shopify.Product.find(title=query, limit=limit)` becomes an empty list
plus a log line. -/
def search_products (sdk : Except String (List ShopifySDKProduct)) :
    List SearchProductData × List String :=
  match sdk with
  | Except.ok ps => (ps.map mapSearchProduct, [])
  | Except.error e => ([], ["Error searching products: " ++ e])

/-- A shop record as returned by `shopify.Shop.current()` (only the fields
the connector reads). -/
structure ShopRecord where
  name : String
  email : String
  domain : String
  currency : String
  timezone : String
  plan_name : String
deriving DecidableEq

/-- Embeds `ShopifyConnector.get_shop_info`: a raise from
`shopify.Shop.current()` becomes `none` plus a log line; otherwise the six
fields are copied into the returned dictionary. -/
def get_shop_info (sdk : Except String ShopRecord) :
    Option ShopRecord × List String :=
  match sdk with
  | Except.ok shop =>
    (some { name := shop.name
            email := shop.email
            domain := shop.domain
            currency := shop.currency
            timezone := shop.timezone
            plan_name := shop.plan_name }, [])
  | Except.error e => (none, ["Error fetching shop info: " ++ e])

/-- Embeds `ShopifyConnector.connect`: session creation and the probing
`shopify.Shop.current()` call may each raise; any raise is caught,
logged and turned into `false`, success is `true`. -/
def ShopifyConnector.connect (sessionCreate : Except String Unit)
    (shopCurrent : Except String ShopRecord) : Bool × List String :=
  match sessionCreate with
  | Except.error e => (false, ["Connection error: " ++ e])
  | Except.ok _ =>
    match shopCurrent with
    | Except.error e => (false, ["Connection error: " ++ e])
    | Except.ok _ => (true, [])

/-- Embeds the module-level `test_connection` helper
(src/shopify_connector.py lines 199-224): build a connector, `connect`;
on failure report a credentials message; on success fetch shop info,
disconnect, and report a message that names the shop when the info fetch
succeeded.  Every modelled operation already catches its own exceptions,
so the outer `try/except` of the source is unreachable here. -/
def test_connection (shop_url access_token : String)
    (sessionCreate : Except String Unit)
    (shopCurrent : Except String ShopRecord)
    (shopInfoCall : Except String ShopRecord) : Bool × String :=
  let connector := ShopifyConnector.init shop_url access_token
  let _ := connector
  if (ShopifyConnector.connect sessionCreate shopCurrent).1 then
    match (get_shop_info shopInfoCall).1 with
    | some shop_info => (true, "✅ Connected to " ++ shop_info.name)
    | none => (true, "✅ Connection successful")
  else
    (false, "❌ Failed to connect. Check your credentials.")

/-! ### JSON values and the structured-output parser -/

/-- JSON values, as produced by the strict JSON decoder. -/
inductive Json where
  | null
  | bool (b : Bool)
  | num (q : Rat)
  | str (s : String)
  | arr (elems : List Json)
  | obj (fields : List (String × Json))

/-- Key lookup in a JSON object (first binding wins, as in a Python dict
built by `json.loads`, whose later duplicates overwrite — decoded objects
carry distinct keys, so the two agree on decoder output). -/
def Json.getKey : Json → String → Option Json
  | Json.obj fields, k =>
    match fields.find? (fun f => f.1 = k) with
    | some f => some f.2
    | none => none
  | _, _ => none

/-- Python `k in json_obj` for a decoded JSON object. -/
def Json.hasKey (j : Json) (k : String) : Bool :=
  (j.getKey k).isSome

/-- A response schema entry as built in `run_analysis`
(src/app.py lines 89-93): a field name plus its natural-language
description (quote marks of the original description text omitted). -/
structure ResponseSchema where
  name : String
  description : String
deriving DecidableEq

/-- The three schemas `run_analysis` hands to
`StructuredOutputParser.from_response_schemas`. -/
def response_schemas : List ResponseSchema :=
  [ { name := "verdict", description := "GREENLIGHT, GO, FIX, or KILL" }
  , { name := "action_plan", description := "3 bullet points on what to do next" }
  , { name := "scores", description := "JSON object with keys: margin, platform_fit, trend, competition, content, shipping, scalability, brand, risk. Each has score (0-10) and insight (string)." } ]

/-- The key-presence loop of the langchain helper
`parse_and_check_json_markdown` that `StructuredOutputParser.parse`
invokes: raise on the first expected top-level key missing from the
decoded object, otherwise return the decoded value unchanged. -/
def checkKeys (j : Json) : List String → Except String Json
  | [] => Except.ok j
  | k :: ks =>
    if j.hasKey k then checkKeys j ks
    else Except.error ("Got invalid return object. Expected key " ++ k ++ " to be present")

/-- Embeds `StructuredOutputParser.parse`, the library call on line 108 of
src/app.py: decode the response text as JSON (the decode outcome is the
`decoded` argument), raise on decode failure, then check only that every
schema name is present as a top-level key.  No validation of nested
structure, value types, or ranges is performed. -/
def structuredOutputParse (schemas : List ResponseSchema)
    (decoded : Except String Json) : Except String Json :=
  match decoded with
  | Except.error e => Except.error ("Got invalid JSON object. Error: " ++ e)
  | Except.ok j => checkKeys j (schemas.map (fun s => s.name))

/-- The outcome of the single `self.llm.invoke(msg)` round-trip:
either the provider raised, or it returned a text whose strict JSON
decode is `decoded`. -/
inductive LLMOutcome where
  | ex (msg : String)
  | response (decoded : Except String Json)

/-- Embeds `EvalyEngine.run_analysis` after prompt construction: a raised
provider exception propagates unchanged; a returned response is passed to
the structured-output parser. -/
def run_analysis (invokeResult : LLMOutcome) : Except String Json :=
  match invokeResult with
  | LLMOutcome.ex m => Except.error m
  | LLMOutcome.response decoded => structuredOutputParse response_schemas decoded

/-! ### Provider routing (`EvalyEngine.__init__`, src/app.py lines 14-42) -/

/-- The backend adapters the router can construct, with the constructor
arguments the source passes (temperature, model identifier, credential). -/
inductive LLMAdapter where
  | chatOpenAI (temperature : Rat) (model : String) (api_key : String)
  | chatGoogleGenerativeAI (temperature : Rat) (model : String) (google_api_key : String)
  | chatAnthropic (temperature : Rat) (model : String) (api_key : String)
deriving DecidableEq

/-- The product dictionary handed to the engine. -/
structure ProductInput where
  name : String
  cost : Rat
  price : Rat
  business_model : String
  platform : String
deriving DecidableEq

/-- The fields `EvalyEngine.__init__` stores. -/
structure EvalyEngine where
  data : ProductInput
  model_type : String
  platform : String
  provider : String
  llm : LLMAdapter
deriving DecidableEq

/-- Embeds `EvalyEngine.__init__`: store the product data and run the
model router, an if/elif chain on the provider-selection string with an
unconditional OpenAI fallback. -/
def EvalyEngine.init (product_data : ProductInput) (api_key : String)
    (model_provider : String) : EvalyEngine :=
  { data := product_data
    model_type := product_data.business_model
    platform := product_data.platform
    provider := model_provider
    llm :=
      if model_provider = "OpenAI (GPT-4o)" then
        LLMAdapter.chatOpenAI 0 "gpt-4o" api_key
      else if model_provider = "Google (Gemini 1.5 Pro)" then
        LLMAdapter.chatGoogleGenerativeAI 0 "gemini-1.5-pro" api_key
      else if model_provider = "Anthropic (Claude 3.5 Sonnet)" then
        LLMAdapter.chatAnthropic 0 "claude-3-5-sonnet-20240620" api_key
      else
        LLMAdapter.chatOpenAI 0 "gpt-4o" api_key }

/-! ### The Streamlit submit handler (src/app.py lines 187-272) -/

/-- Python `d[k]` on a decoded JSON object: `KeyError` when absent. -/
def pyGetItem (j : Json) (k : String) : Except String Json :=
  match j.getKey k with
  | some v => Except.ok v
  | none => Except.error ("KeyError: " ++ k)

/-- Python `xs[0]` on a decoded JSON array: `IndexError` when empty,
`TypeError` on a non-array. -/
def pyIndexZero (j : Json) : Except String Json :=
  match j with
  | Json.arr (x :: _) => Except.ok x
  | Json.arr [] => Except.error "IndexError: list index out of range"
  | _ => Except.error "TypeError: value is not subscriptable by 0"

/-- The nine criterion keys in the order the dashboard reads them. -/
def requiredScoreKeys : List String :=
  ["margin", "platform_fit", "trend", "competition", "content",
   "shipping", "scalability", "brand", "risk"]

/-- The unconditional dictionary accesses the results view performs on a
parsed result (src/app.py lines 205-268): `scores`, `verdict`,
`action_plan[0]`, then `score` and `insight` of each of the nine
criterion entries.  The first failing access raises. -/
def displayAccesses (result : Json) : Except String Json := do
  let scores ← pyGetItem result "scores"
  let _ ← pyGetItem result "verdict"
  let plan ← pyGetItem result "action_plan"
  let _ ← pyIndexZero plan
  let _ ← requiredScoreKeys.foldlM
    (fun acc k => do
      let entry ← pyGetItem scores k
      let _ ← pyGetItem entry "score"
      let _ ← pyGetItem entry "insight"
      pure acc)
    Json.null
  pure result

/-- What the user ends up seeing after pressing the run button. -/
inductive UIOutcome where
  | keyMissing (msg : String)
  | shown (result : Json)
  | errorShown (msg : String)

/-- Embeds the `start_btn` handler: an empty credential short-circuits
with a key-request message before any engine work; otherwise the engine
runs and renders, and any exception from the whole block — provider
raise, parser raise, or a failing display access — is caught by the one
generic `except` and shown as `An error occurred: ...`. -/
def startHandler (model_choice api_key : String)
    (invokeResult : LLMOutcome) : UIOutcome :=
  if api_key = "" then
    UIOutcome.keyMissing ("Please enter your " ++ model_choice ++ " API Key in the sidebar.")
  else
    match run_analysis invokeResult >>= displayAccesses with
    | Except.ok r => UIOutcome.shown r
    | Except.error e => UIOutcome.errorShown ("An error occurred: " ++ e)

/-! ### Helper lemmas about the re-implemented `str.replace` -/

theorem pyReplaceGo_nil (old new : List Char) (f : Nat) :
    pyReplaceGo old new f [] = [] := by
  cases f <;> rfl

theorem pyReplaceGo_zero (old new : List Char) (s : List Char) :
    pyReplaceGo old new 0 s = s := by
  cases s <;> rfl

theorem pyReplaceGo_succ (old new : List Char) (f : Nat) (c : Char) (cs : List Char) :
    pyReplaceGo old new (f + 1) (c :: cs) =
      if old.isPrefixOf (c :: cs) then
        new ++ pyReplaceGo old new f (List.drop (old.length - 1) cs)
      else
        c :: pyReplaceGo old new f cs := rfl

theorem isPrefixOf_self_append (l m : List Char) : l.isPrefixOf (l ++ m) = true := by
  induction l with
  | nil => simp [List.isPrefixOf]
  | cons a as ih => simp [List.isPrefixOf, ih]

theorem isPrefixOf_subset {l m : List Char} (h : l.isPrefixOf m = true) : l ⊆ m := by
  induction l generalizing m with
  | nil => intro c hc; cases hc
  | cons a as ih =>
    cases m with
    | nil => simp [List.isPrefixOf] at h
    | cons b bs =>
      simp only [List.isPrefixOf, Bool.and_eq_true, beq_iff_eq] at h
      intro c hc
      rcases List.mem_cons.mp hc with hc1 | hc1
      · exact hc1 ▸ h.1 ▸ List.mem_cons_self _ _
      · exact List.mem_cons_of_mem _ (ih h.2 hc1)

/-- The fuel argument is irrelevant once it is at least the length of the
scanned list. -/
theorem pyReplaceGo_fuel_eq (old new : List Char) :
    ∀ (f₁ f₂ : Nat) (s : List Char), s.length ≤ f₁ → s.length ≤ f₂ →
      pyReplaceGo old new f₁ s = pyReplaceGo old new f₂ s := by
  intro f₁
  induction f₁ with
  | zero =>
    intro f₂ s hs _
    have : s = [] := List.eq_nil_of_length_eq_zero (Nat.le_zero.mp hs)
    subst this
    rw [pyReplaceGo_nil, pyReplaceGo_nil]
  | succ f ih =>
    intro f₂ s hs₁ hs₂
    cases s with
    | nil => rw [pyReplaceGo_nil, pyReplaceGo_nil]
    | cons c cs =>
      cases f₂ with
      | zero => exact absurd hs₂ (by simp)
      | succ g =>
        rw [pyReplaceGo_succ, pyReplaceGo_succ]
        have hcs₁ : cs.length ≤ f := by simpa using hs₁
        have hcs₂ : cs.length ≤ g := by simpa using hs₂
        by_cases hp : old.isPrefixOf (c :: cs) = true
        · rw [if_pos hp, if_pos hp]
          congr 1
          have hlen : (List.drop (old.length - 1) cs).length ≤ cs.length := by
            simp [List.length_drop]
          exact ih g _ (Nat.le_trans hlen hcs₁) (Nat.le_trans hlen hcs₂)
        · rw [if_neg hp, if_neg hp]
          congr 1
          exact ih g cs hcs₁ hcs₂

/-- Replacing a pattern that does not occur leaves the list unchanged. -/
theorem pyReplaceGo_of_occursSub_false (old new : List Char) :
    ∀ (s : List Char) (f : Nat), occursSub old s = false →
      pyReplaceGo old new f s = s := by
  intro s
  induction s with
  | nil => intro f _; exact pyReplaceGo_nil old new f
  | cons c cs ih =>
    intro f h
    simp only [occursSub, Bool.or_eq_false_iff] at h
    cases f with
    | zero => exact pyReplaceGo_zero old new _
    | succ g =>
      rw [pyReplaceGo_succ, if_neg (by simp [h.1]), ih g h.2]

/-- A copy of the pattern at the front of the scanned list is consumed in
one replacement step. -/
theorem pyReplaceGo_self_append (old new : List Char) (hold : old ≠ []) (s : List Char)
    (f : Nat) (hf : s.length ≤ f) :
    pyReplaceGo old new (f + old.length) (old ++ s) =
      new ++ pyReplaceGo old new f s := by
  cases old with
  | nil => exact absurd rfl hold
  | cons o os =>
    have hstep : pyReplaceGo (o :: os) new (f + (os.length + 1)) ((o :: os) ++ s) =
        if (o :: os).isPrefixOf ((o :: os) ++ s) then
          new ++ pyReplaceGo (o :: os) new (f + os.length)
            (List.drop ((o :: os).length - 1) (os ++ s))
        else
          (o :: os).head! :: pyReplaceGo (o :: os) new (f + os.length) (os ++ s) := by
      rw [show f + (os.length + 1) = (f + os.length) + 1 by omega]
      exact pyReplaceGo_succ _ _ _ _ _
    rw [List.length_cons, hstep, if_pos (isPrefixOf_self_append _ _)]
    congr 1
    have hdrop : List.drop ((o :: os).length - 1) (os ++ s) = s := by
      simp only [List.length_cons, Nat.add_sub_cancel]
      exact List.drop_left os s
    rw [hdrop]
    exact pyReplaceGo_fuel_eq _ _ _ _ _ (by omega) hf

/-- Scanning for `https://` walks through a leading `http://` without
replacing anything: the only `h` in that region starts the mismatching
`http://` itself. -/
theorem pyReplaceGo_https_skips_http_head (s : List Char) (f : Nat) :
    pyReplaceGo "https://".data "".data (f + 7) ('h' :: 't' :: 't' :: 'p' :: ':' :: '/' :: '/' :: s) =
      'h' :: 't' :: 't' :: 'p' :: ':' :: '/' :: '/' :: pyReplaceGo "https://".data "".data f s := by
  have e7 : f + 7 = (f + 6) + 1 := by omega
  have e6 : f + 6 = (f + 5) + 1 := by omega
  have e5 : f + 5 = (f + 4) + 1 := by omega
  have e4 : f + 4 = (f + 3) + 1 := by omega
  have e3 : f + 3 = (f + 2) + 1 := by omega
  have e2 : f + 2 = (f + 1) + 1 := by omega
  rw [e7, pyReplaceGo_succ, if_neg (by simp [List.isPrefixOf]),
      e6, pyReplaceGo_succ, if_neg (by simp [List.isPrefixOf]),
      e5, pyReplaceGo_succ, if_neg (by simp [List.isPrefixOf]),
      e4, pyReplaceGo_succ, if_neg (by simp [List.isPrefixOf]),
      e3, pyReplaceGo_succ, if_neg (by simp [List.isPrefixOf]),
      e2, pyReplaceGo_succ, if_neg (by simp [List.isPrefixOf]),
      pyReplaceGo_succ, if_neg (by simp [List.isPrefixOf])]

/-- Strings with equal character data are equal. -/
theorem stringDataEq {a b : String} (h : a.data = b.data) : a = b :=
  congrArg String.mk h

theorem pyReplace_of_occursSub_false (s old new : String)
    (h : occursSub old.data s.data = false) : pyReplace s old new = s := by
  unfold pyReplace
  rw [pyReplaceGo_of_occursSub_false _ _ _ _ h]

theorem pyReplace_self_append (old new s : String) (hold : old.data ≠ []) :
    pyReplace (old ++ s) old new = new ++ pyReplace s old new := by
  unfold pyReplace
  apply stringDataEq
  rw [String.data_append, List.length_append, Nat.add_comm,
    pyReplaceGo_self_append old.data new.data hold s.data s.data.length (Nat.le_refl _)]
  rfl

theorem pyReplace_https_of_http_head (s : String) :
    pyReplace ("http://" ++ s) "https://" "" = "http://" ++ pyReplace s "https://" "" := by
  unfold pyReplace
  apply stringDataEq
  have hdata : ("http://" ++ s).data = 'h' :: 't' :: 't' :: 'p' :: ':' :: '/' :: '/' :: s.data := by
    rw [String.data_append]; rfl
  rw [hdata]
  have hlen : ('h' :: 't' :: 't' :: 'p' :: ':' :: '/' :: '/' :: s.data).length = s.data.length + 7 := by
    simp
  rw [hlen, pyReplaceGo_https_skips_http_head s.data s.data.length]
  rfl

theorem pyReplace_self_append_empty (old s : String) (hold : old.data ≠ []) :
    pyReplace (old ++ s) old "" = pyReplace s old "" := by
  rw [pyReplace_self_append old "" s hold]
  apply stringDataEq
  rw [String.data_append]
  rfl

/-! ### Structural lemmas about the shop-identifier normalization -/

theorem listEndsWith_self_append (u pat : List Char) :
    listEndsWith (u ++ pat) pat = true := by
  unfold listEndsWith
  rw [List.reverse_append]
  exact isPrefixOf_self_append _ _

/-- A leading `https://` is stripped: the constructor stores the same
domain as for the identifier without it. -/
theorem normalizeShopUrl_strip_https (s : String) :
    normalizeShopUrl ("https://" ++ s) = normalizeShopUrl s := by
  simp only [normalizeShopUrl]
  rw [pyReplace_self_append_empty "https://" s (by decide)]

/-- A leading `http://` is stripped as well: scanning for `https://` walks
through it unchanged and the second replacement removes it. -/
theorem normalizeShopUrl_strip_http (s : String) :
    normalizeShopUrl ("http://" ++ s) = normalizeShopUrl s := by
  simp only [normalizeShopUrl]
  rw [pyReplace_https_of_http_head s,
    pyReplace_self_append_empty "http://" (pyReplace s "https://" "") (by decide)]

/-- Every stored shop domain either ends in `.myshopify.com` or contains a
dot: the constructor appends the suffix exactly in the no-dot case. -/
theorem normalizeShopUrl_endsWith_or_dot (s : String) :
    listEndsWith (normalizeShopUrl s).data ".myshopify.com".data = true ∨
    (normalizeShopUrl s).data.contains '.' = true := by
  simp only [normalizeShopUrl]
  set u := pyReplace (pyReplace s "https://" "") "http://" "" with hu
  by_cases he : listEndsWith u.data ".myshopify.com".data = true
  · rw [if_neg (fun hc => hc he)]
    exact Or.inl he
  · rw [if_pos he]
    by_cases hd : u.data.contains '.' = true
    · rw [if_neg (fun hc => hc hd)]
      exact Or.inr hd
    · rw [if_pos hd]
      left
      rw [String.data_append]
      exact listEndsWith_self_append _ _

/-- A bare shop name (no dot, no residual scheme text) gets the canonical
suffix appended. -/
theorem normalizeShopUrl_bare_name (s : String) (hdot : s.data.contains '.' = false)
    (h1 : occursSub "https://".data s.data = false)
    (h2 : occursSub "http://".data s.data = false) :
    normalizeShopUrl s = s ++ ".myshopify.com" := by
  simp only [normalizeShopUrl]
  rw [pyReplace_of_occursSub_false _ _ _ h1, pyReplace_of_occursSub_false _ _ _ h2]
  have hends : listEndsWith s.data ".myshopify.com".data = false := by
    cases hb : listEndsWith s.data ".myshopify.com".data
    · rfl
    · exfalso
      have hsub : ".myshopify.com".data.reverse ⊆ s.data.reverse := isPrefixOf_subset hb
      have hmem : ('.' : Char) ∈ s.data := by
        have hm : ('.' : Char) ∈ ".myshopify.com".data.reverse := by decide
        simpa [List.mem_reverse] using hsub hm
      have : s.data.contains '.' = true := List.elem_iff.mpr hmem
      rw [hdot] at this
      exact Bool.false_ne_true this
  rw [if_pos (by rw [hends]; simp), if_pos (by rw [hdot]; simp)]

/-! ### Claim theorems: catalog connector -/

/-- Claim C3, counterexample: the constructor does not strip an arbitrary
URL scheme.  For the input `ftp://mystore` the `ftp://` prefix survives
(only `https://` and `http://` are removed), and the canonical suffix is
appended to the scheme-bearing string. -/
theorem schemeNotStrippedCounterexample :
    (ShopifyConnector.init "ftp://mystore" "tok").shop_url = "ftp://mystore.myshopify.com" ∧
    occursSub "ftp://".data
      (ShopifyConnector.init "ftp://mystore" "tok").shop_url.data = true :=
  ⟨rfl, rfl⟩

/-- Claim C3 (amended): `mystore` is stored as `mystore.myshopify.com`;
`https://mystore.myshopify.com` is stored as `mystore.myshopify.com`;
a leading `https://` or `http://` (the only schemes handled) is stripped;
and for a bare shop name — one containing no dot and no residual
`https://`/`http://` text — the canonical suffix is appended. -/
theorem shopNormalizationAmended :
    (ShopifyConnector.init "mystore" "tok").shop_url = "mystore.myshopify.com" ∧
    (ShopifyConnector.init "https://mystore.myshopify.com" "tok").shop_url =
      "mystore.myshopify.com" ∧
    (∀ s t : String, (ShopifyConnector.init ("https://" ++ s) t).shop_url =
      (ShopifyConnector.init s t).shop_url) ∧
    (∀ s t : String, (ShopifyConnector.init ("http://" ++ s) t).shop_url =
      (ShopifyConnector.init s t).shop_url) ∧
    (∀ s t : String, s.data.contains '.' = false →
      occursSub "https://".data s.data = false →
      occursSub "http://".data s.data = false →
      (ShopifyConnector.init s t).shop_url = s ++ ".myshopify.com") := by
  refine ⟨rfl, rfl, ?_, ?_, ?_⟩
  · intro s t
    exact normalizeShopUrl_strip_https s
  · intro s t
    exact normalizeShopUrl_strip_http s
  · intro s t hdot h1 h2
    exact normalizeShopUrl_bare_name s hdot h1 h2

/-- Claim C3, witness: the amended theorem applied to the bare name
`shop42`. -/
theorem shopNormalizationAmendedWitness :
    (ShopifyConnector.init "shop42" "tok").shop_url = "shop42.myshopify.com" :=
  shopNormalizationAmended.2.2.2.2 "shop42" "tok" (by decide) (by decide) (by decide)

/-- Normalization is the identity on a string free of scheme text that
already ends in the canonical suffix or contains a dot. -/
theorem normalizeShopUrl_of_no_scheme (t : String)
    (h1 : occursSub "https://".data t.data = false)
    (h2 : occursSub "http://".data t.data = false)
    (h3 : listEndsWith t.data ".myshopify.com".data = true ∨
      t.data.contains '.' = true) :
    normalizeShopUrl t = t := by
  simp only [normalizeShopUrl]
  rw [pyReplace_of_occursSub_false _ _ _ h1, pyReplace_of_occursSub_false _ _ _ h2]
  by_cases he : listEndsWith t.data ".myshopify.com".data = true
  · rw [if_neg (fun hc => hc he)]
  · rw [if_pos he]
    rcases h3 with h3 | h3
    · exact absurd h3 he
    · rw [if_neg (fun hc => hc h3)]

/-- Claim C9, counterexample: normalization is not idempotent.  Stripping
`http://` from `hthttp://tp://x` re-creates a `http://` occurrence, so the
first normalization stores `http://x.myshopify.com` and a second pass
strips the scheme again, giving a different string. -/
theorem normalizeNotIdempotentCounterexample :
    normalizeShopUrl "hthttp://tp://x" = "http://x.myshopify.com" ∧
    normalizeShopUrl (normalizeShopUrl "hthttp://tp://x") = "x.myshopify.com" ∧
    normalizeShopUrl (normalizeShopUrl "hthttp://tp://x") ≠
      normalizeShopUrl "hthttp://tp://x" :=
  ⟨rfl, rfl, by decide⟩

/-- Claim C9 (amended): normalization is idempotent on every input whose
normalized form carries no residual `https://` or `http://` text — in
particular on every ordinary shop identifier — so a connector built from
another connector's stored `shop_url` stores the identical domain; it is
not idempotent in general. -/
theorem normalizeIdempotentAmended (s : String)
    (h1 : occursSub "https://".data (normalizeShopUrl s).data = false)
    (h2 : occursSub "http://".data (normalizeShopUrl s).data = false) :
    (ShopifyConnector.init (ShopifyConnector.init s "tok").shop_url "tok").shop_url =
      (ShopifyConnector.init s "tok").shop_url :=
  normalizeShopUrl_of_no_scheme (normalizeShopUrl s) h1 h2
    (normalizeShopUrl_endsWith_or_dot s)

/-- Claim C9, witness: idempotence at the bare name `mystore`. -/
theorem normalizeIdempotentAmendedWitness :
    (ShopifyConnector.init (ShopifyConnector.init "mystore" "tok").shop_url "tok").shop_url =
      (ShopifyConnector.init "mystore" "tok").shop_url :=
  normalizeIdempotentAmended "mystore" (by decide) (by decide)

/-- Claim C4: every catalog operation funnels an exception from the
underlying SDK call into an empty list (list-returning operations) or
`none` (single-value operations) together with a logged message, never
propagating it; the data component is then indistinguishable from a
successful empty fetch. -/
theorem catalogOpsSwallowExceptions (st : ShopifyConnectorState) (e : String) :
    get_products st (Except.error e) = ([], ["Error fetching products: " ++ e]) ∧
    get_product_by_id st (Except.error e) = (none, ["Error fetching product: " ++ e]) ∧
    search_products (Except.error e) = ([], ["Error searching products: " ++ e]) ∧
    get_shop_info (Except.error e) = (none, ["Error fetching shop info: " ++ e]) ∧
    (get_products st (Except.error e)).1 = (get_products st (Except.ok [])).1 ∧
    (search_products (Except.error e)).1 = (search_products (Except.ok [])).1 :=
  ⟨rfl, rfl, rfl, rfl, rfl, rfl⟩

/-- Claim C5: the field mapping takes the first variant's price,
compare-at-price, SKU and inventory count as representative; a product
with no variants maps to price 0.0, empty SKU, inventory 0; a product
with no images maps to no image URL, and the first image otherwise; the
display URL concatenates the stored shop domain with the handle path. -/
theorem catalogFieldMapping (u : String) (p : ShopifySDKProduct) :
    (p.variants = [] → (mapProduct u p).price = 0 ∧ (mapProduct u p).sku = "" ∧
      (mapProduct u p).inventory_quantity = 0 ∧
      (mapProduct u p).compare_at_price = none) ∧
    (p.images = [] → (mapProduct u p).image_url = none) ∧
    (∀ v vs, p.variants = v :: vs →
      (mapProduct u p).price = v.price ∧
      (mapProduct u p).compare_at_price = v.compare_at_price ∧
      (mapProduct u p).sku = v.sku ∧
      (mapProduct u p).inventory_quantity = v.inventory_quantity) ∧
    (∀ i is, p.images = i :: is → (mapProduct u p).image_url = some i.src) ∧
    (mapProduct u p).url = "https://" ++ u ++ "/products/" ++ p.handle := by
  refine ⟨?_, ?_, ?_, ?_, rfl⟩
  · intro h
    simp [mapProduct, h]
  · intro h
    simp [mapProduct, h]
  · intro v vs h
    simp [mapProduct, h]
  · intro i is h
    simp [mapProduct, h]

/-- A product record with no variants and no images, for evaluating the
mapping at a concrete input. -/
def bareSDKProduct : ShopifySDKProduct :=
  { id := 7
    title := "Widget"
    variants := []
    images := []
    product_type := "Gadget"
    vendor := "Acme"
    tags := "new"
    status := "active"
    created_at := "2024-01-01"
    handle := "widget" }

/-- Claim C5, witness: the mapping theorem evaluated on a record with zero
variants and zero images. -/
theorem catalogFieldMappingWitness :
    (mapProduct "mystore.myshopify.com" bareSDKProduct).price = 0 ∧
    (mapProduct "mystore.myshopify.com" bareSDKProduct).sku = "" ∧
    (mapProduct "mystore.myshopify.com" bareSDKProduct).inventory_quantity = 0 ∧
    (mapProduct "mystore.myshopify.com" bareSDKProduct).image_url = none ∧
    (mapProduct "mystore.myshopify.com" bareSDKProduct).url =
      "https://" ++ "mystore.myshopify.com" ++ "/products/" ++ bareSDKProduct.handle := by
  have h := catalogFieldMapping "mystore.myshopify.com" bareSDKProduct
  exact ⟨(h.1 rfl).1, (h.1 rfl).2.1, (h.1 rfl).2.2.1, h.2.1 rfl, h.2.2.2.2⟩

/-- Claim C10: `test_connection` always returns a `(Bool, String)` pair —
one of the three enumerated outcomes — whatever the external calls do;
every exception along the way has already been converted. -/
theorem testConnectionTotal (u t : String) (sc : Except String Unit)
    (cur info : Except String ShopRecord) :
    test_connection u t sc cur info =
      (false, "❌ Failed to connect. Check your credentials.") ∨
    (∃ n, test_connection u t sc cur info = (true, "✅ Connected to " ++ n)) ∨
    test_connection u t sc cur info = (true, "✅ Connection successful") := by
  unfold test_connection ShopifyConnector.connect get_shop_info
  rcases sc with e | u2
  · left; rfl
  · rcases cur with e2 | shop
    · left; rfl
    · rcases info with e3 | shop2
      · right; right; rfl
      · right; left; exact ⟨shop2.name, rfl⟩

/-! ### Claim theorems: analysis engine -/

/-- Claim C2: any provider-selection string other than the three
enumerated choices makes the engine constructor fall back to an OpenAI
adapter with model `gpt-4o` (temperature 0, same credential) instead of
raising. -/
theorem unknownProviderFallsBack (pd : ProductInput) (api_key p : String)
    (h1 : p ≠ "OpenAI (GPT-4o)") (h2 : p ≠ "Google (Gemini 1.5 Pro)")
    (h3 : p ≠ "Anthropic (Claude 3.5 Sonnet)") :
    (EvalyEngine.init pd api_key p).llm = LLMAdapter.chatOpenAI 0 "gpt-4o" api_key := by
  simp [EvalyEngine.init, h1, h2, h3]

/-- Claim C2, witness: the fallback at the unsupported selection
`Mistral Large`. -/
theorem unknownProviderFallsBackWitness :
    (EvalyEngine.init
      { name := "Example: Red Light Therapy Belt", cost := 28, price := 129,
        business_model := "Private Label", platform := "Shopify" }
      "sk-key" "Mistral Large").llm = LLMAdapter.chatOpenAI 0 "gpt-4o" "sk-key" :=
  unknownProviderFallsBack _ "sk-key" "Mistral Large" (by decide) (by decide) (by decide)

/-- Claim C6: each supported provider selection constructs its backend
adapter with temperature 0, the provider's fixed model identifier, and
the caller-supplied credential. -/
theorem supportedProviderAdapters (pd : ProductInput) (api_key : String) :
    (EvalyEngine.init pd api_key "OpenAI (GPT-4o)").llm =
      LLMAdapter.chatOpenAI 0 "gpt-4o" api_key ∧
    (EvalyEngine.init pd api_key "Google (Gemini 1.5 Pro)").llm =
      LLMAdapter.chatGoogleGenerativeAI 0 "gemini-1.5-pro" api_key ∧
    (EvalyEngine.init pd api_key "Anthropic (Claude 3.5 Sonnet)").llm =
      LLMAdapter.chatAnthropic 0 "claude-3-5-sonnet-20240620" api_key :=
  ⟨rfl, rfl, rfl⟩

/-- A response whose three top-level keys are present but whose `scores`
object is empty: well-formed for the parser, unusable for the display. -/
def scorelessFields : List (String × Json) :=
  [("verdict", Json.str "GO"),
   ("action_plan", Json.arr [Json.str "Launch", Json.str "Test ads", Json.str "Scale"]),
   ("scores", Json.obj [])]

/-- The JSON object built from `scorelessFields`. -/
def scorelessResponse : Json := Json.obj scorelessFields

/-- Claim C1, counterexample: the parser used by `run_analysis` returns a
result whose `scores` object is empty — none of the nine required
sub-keys, let alone their score/insight typing, is enforced. -/
theorem parserAcceptsMissingScoreKeys :
    run_analysis (LLMOutcome.response (Except.ok scorelessResponse)) =
      Except.ok scorelessResponse ∧
    scorelessResponse.getKey "scores" = some (Json.obj []) ∧
    (Json.obj []).hasKey "margin" = false :=
  ⟨rfl, rfl, rfl⟩

/-- Claim C1 (amended): the parser enforces exactly the presence of the
three top-level keys `verdict`, `action_plan`, `scores` on a decoded
object — raising on a JSON-decode failure or a missing top-level key —
and returns the decoded value otherwise; the nine `scores` sub-keys and
their score/insight types and ranges are not validated, so a result
lacking them can be returned. -/
theorem parserEnforcesTopLevelKeysOnly :
    (∀ fields : List (String × Json),
      (run_analysis (LLMOutcome.response (Except.ok (Json.obj fields))) =
          Except.ok (Json.obj fields) ↔
        (Json.obj fields).hasKey "verdict" = true ∧
        (Json.obj fields).hasKey "action_plan" = true ∧
        (Json.obj fields).hasKey "scores" = true)) ∧
    (∀ e, run_analysis (LLMOutcome.response (Except.error e)) =
      Except.error ("Got invalid JSON object. Error: " ++ e)) := by
  constructor
  · intro fields
    by_cases h1 : (Json.obj fields).hasKey "verdict" = true <;>
    by_cases h2 : (Json.obj fields).hasKey "action_plan" = true <;>
    by_cases h3 : (Json.obj fields).hasKey "scores" = true <;>
    simp [run_analysis, structuredOutputParse, response_schemas, checkKeys, h1, h2, h3]
  · intro e
    rfl

/-- Claim C1, witness: the amended theorem accepting an object carrying
the three top-level keys. -/
theorem parserEnforcesTopLevelKeysOnlyWitness :
    run_analysis (LLMOutcome.response (Except.ok (Json.obj scorelessFields))) =
      Except.ok (Json.obj scorelessFields) :=
  (parserEnforcesTopLevelKeysOnly.1 scorelessFields).mpr ⟨rfl, rfl, rfl⟩

/-- A fully populated, well-formed analysis response: all three top-level
keys and the nine complete score entries. -/
def fullGoodResponse : Json :=
  Json.obj
    [("verdict", Json.str "GO"),
     ("action_plan",
       Json.arr [Json.str "Launch a landing page",
                 Json.str "Film three demo videos",
                 Json.str "Order a sample batch"]),
     ("scores", Json.obj
       [("margin", Json.obj [("score", Json.num 8), ("insight", Json.str "Strong margin")]),
        ("platform_fit", Json.obj [("score", Json.num 7), ("insight", Json.str "Visual product")]),
        ("trend", Json.obj [("score", Json.num 6), ("insight", Json.str "Rising interest")]),
        ("competition", Json.obj [("score", Json.num 5), ("insight", Json.str "Moderate field")]),
        ("content", Json.obj [("score", Json.num 8), ("insight", Json.str "Clear before and after")]),
        ("shipping", Json.obj [("score", Json.num 6), ("insight", Json.str "Light and sturdy")]),
        ("scalability", Json.obj [("score", Json.num 7), ("insight", Json.str "Room to grow")]),
        ("brand", Json.obj [("score", Json.num 6), ("insight", Json.str "Possible moat")]),
        ("risk", Json.obj [("score", Json.num 4), ("insight", Json.str "Low liability")])])]

/-- Claim C7: the response parser is a deterministic pure function of the
decoded response — two parses of the same well-formed text give
structurally equal results. -/
theorem parseDeterministic (d : Except String Json) (r₁ r₂ : Json)
    (h1 : structuredOutputParse response_schemas d = Except.ok r₁)
    (h2 : structuredOutputParse response_schemas d = Except.ok r₂) :
    r₁ = r₂ := by
  rw [h1] at h2
  exact Except.ok.inj h2

/-- Claim C7, witness: determinism at a fully populated response. -/
theorem parseDeterministicWitness :
    structuredOutputParse response_schemas (Except.ok fullGoodResponse) =
      Except.ok fullGoodResponse ∧
    fullGoodResponse = fullGoodResponse :=
  ⟨rfl, parseDeterministic (Except.ok fullGoodResponse) _ _ rfl rfl⟩

/-- Claim C8, counterexample: no `ConfigurationError` kind exists or is
distinguished.  A provider exception from a rejected credential and a
schema-validation failure produce the identical generic UI outcome, and
an empty credential produces a key-request message without running the
engine — not a distinguished error kind raised by `evaluate`. -/
theorem configErrorNotDistinguished :
    startHandler "OpenAI (GPT-4o)" "sk-rejected"
        (LLMOutcome.ex "Got invalid JSON object. Error: boom") =
      startHandler "OpenAI (GPT-4o)" "sk-rejected"
        (LLMOutcome.response (Except.error "boom")) ∧
    startHandler "OpenAI (GPT-4o)" "sk-rejected"
        (LLMOutcome.ex "Got invalid JSON object. Error: boom") =
      UIOutcome.errorShown "An error occurred: Got invalid JSON object. Error: boom" ∧
    startHandler "OpenAI (GPT-4o)" "" (LLMOutcome.ex "invalid api key") =
      UIOutcome.keyMissing "Please enter your OpenAI (GPT-4o) API Key in the sidebar." :=
  ⟨rfl, rfl, rfl⟩

/-- Claim C8 (amended): an empty credential makes the handler
short-circuit with a key-request message before any engine work, and a
credential the provider rejects surfaces through the same generic
`An error occurred:` path as every other failure — no distinguished
`ConfigurationError` kind exists. -/
theorem credentialFailureBehavior (mc k e : String) (inv : LLMOutcome)
    (hk : k ≠ "") :
    startHandler mc "" inv =
      UIOutcome.keyMissing ("Please enter your " ++ mc ++ " API Key in the sidebar.") ∧
    startHandler mc k (LLMOutcome.ex e) =
      UIOutcome.errorShown ("An error occurred: " ++ e) := by
  constructor
  · rfl
  · unfold startHandler
    rw [if_neg hk]
    rfl

/-- Claim C8, witness: the amended behavior at a concrete provider
exception. -/
theorem credentialFailureBehaviorWitness :
    startHandler "OpenAI (GPT-4o)" "" (LLMOutcome.ex "401") =
      UIOutcome.keyMissing "Please enter your OpenAI (GPT-4o) API Key in the sidebar." ∧
    startHandler "OpenAI (GPT-4o)" "sk-live" (LLMOutcome.ex "401 Unauthorized") =
      UIOutcome.errorShown "An error occurred: 401 Unauthorized" := by
  have h := credentialFailureBehavior "OpenAI (GPT-4o)" "sk-live" "401 Unauthorized"
    (LLMOutcome.ex "401") (by decide)
  exact ⟨h.1, h.2⟩
